import Mathlib

/-!
Verification of the `docker-command` library: a shallow embedding of its
argument-encoding engine (Launcher subcommands, Volume / PublishPorts /
PortRange / UserAndGroup formatting) and of its engine auto-detection
heuristic, with theorems checking the specification's claims.

Conventions of the embedding:
* `Command` models the subset of `command_run::Command` that the library's
  argument encoding observes: the program token plus the ordered argument
  token list.  `OsString`/`PathBuf` values are modelled as `String`
  (byte-content is carried verbatim by the code, never re-parsed).
* Machine integers (`u16` ports, `u32` ids, `u32` stop time) are modelled
  as `Nat`; the code performs no arithmetic on them, only decimal
  formatting, so no overflow reduction is needed.
* The ambient host state read by auto-detection (the `PATH` variable, file
  existence, and the outcome of running `groups`) is passed explicitly as
  a `HostEnv` value; `groups_output = none` models every failure of the
  probe (missing binary, non-zero exit, I/O error), `some out` models a
  successful probe whose captured stdout is `out`.
-/

namespace DockerCommand

/-- Model of `command_run::Command` restricted to what argument encoding
observes: the program and the ordered list of argument tokens. -/
structure Command where
  program : String
  args : List String
deriving DecidableEq

/-- `Command::new(program)`. -/
def Command.new (program : String) : Command :=
  ⟨program, []⟩

/-- `Command::with_args(program, args)`. -/
def Command.with_args (program : String) (args : List String) : Command :=
  ⟨program, args⟩

/-- `Command::add_arg`: append one token. -/
def Command.add_arg (c : Command) (arg : String) : Command :=
  { c with args := c.args ++ [arg] }

/-- `Command::add_arg_pair`: append two tokens (flag then value). -/
def Command.add_arg_pair (c : Command) (arg1 arg2 : String) : Command :=
  (c.add_arg arg1).add_arg arg2

/-- `Command::add_args`: append a list of tokens. -/
def Command.add_args (c : Command) (args : List String) : Command :=
  { c with args := c.args ++ args }

/-- The full argument vector handed to the OS: program token followed by
the argument tokens. -/
def Command.argv (c : Command) : List String :=
  c.program :: c.args

/-- `BaseCommand`: preset base commands a `Launcher` can be built from. -/
inductive BaseCommand where
  | Docker
  | SudoDocker
  | Podman
deriving DecidableEq

/-- `Launcher`: holds the base command used to create all subcommands. -/
structure Launcher where
  base_command : Command
deriving DecidableEq

/-- `Launcher::new`. -/
def Launcher.new (base_command : Command) : Launcher :=
  ⟨base_command⟩

/-- `impl From<BaseCommand> for Launcher`. -/
def Launcher.fromBaseCommand : BaseCommand → Launcher
  | .Docker => ⟨Command.new "docker"⟩
  | .SudoDocker => ⟨Command.with_args "sudo" ["docker"]⟩
  | .Podman => ⟨Command.new "podman"⟩

/-- `Launcher::is_program`: the base command's program, or any of its
argument tokens, equals `program`. -/
def Launcher.is_program (l : Launcher) (program : String) : Bool :=
  l.base_command.program == program || l.base_command.args.contains program

/-- `Launcher::is_docker`. -/
def Launcher.is_docker (l : Launcher) : Bool :=
  l.is_program "docker"

/-- `Launcher::is_podman`. -/
def Launcher.is_podman (l : Launcher) : Bool :=
  l.is_program "podman"

/-- `PortRange`: `pub struct PortRange(pub RangeInclusive<u16>)`; the
inclusive range's two endpoints, accessed in the code as
`self.0.start()` and `self.0.end()` (`end` is a Lean keyword, hence
`end_`).  The tuple field is public, so any pair of `u16` endpoints is
constructible by callers. -/
structure PortRange where
  start : Nat
  end_ : Nat
deriving DecidableEq

/-- `impl Default for PortRange`: `0..=0`. -/
def PortRange.default : PortRange :=
  ⟨0, 0⟩

/-- `impl Display for PortRange`: `"n"` when the endpoints coincide,
else `"start-end"`. -/
def PortRange.display (r : PortRange) : String :=
  if r.start = r.end_ then
    toString r.start
  else
    toString r.start ++ "-" ++ toString r.end_

/-- `impl From<u16> for PortRange`: `port..=port`. -/
def PortRange.fromU16 (port : Nat) : PortRange :=
  ⟨port, port⟩

/-- `NameOrId`: name or numeric id of a user or group. -/
inductive NameOrId where
  | Name : String → NameOrId
  | Id : Nat → NameOrId
deriving DecidableEq

/-- `impl Display for NameOrId`. -/
def NameOrId.display : NameOrId → String
  | .Name name => name
  | .Id id => toString id

/-- `UserAndGroup`: user and optional group. -/
structure UserAndGroup where
  user : NameOrId
  group : Option NameOrId
deriving DecidableEq

/-- `UserAndGroup::root`. -/
def UserAndGroup.root : UserAndGroup :=
  ⟨.Id 0, some (.Id 0)⟩

/-- `UserAndGroup::arg`: `<user>` or `<user>:<group>`. -/
def UserAndGroup.arg (u : UserAndGroup) : String :=
  let out := u.user.display
  match u.group with
  | some group => out ++ ":" ++ group.display
  | none => out

/-- `PublishPorts`: container port range, optional host port range,
optional host IP. -/
structure PublishPorts where
  container : PortRange
  host : Option PortRange
  ip : Option String
deriving DecidableEq

/-- `PublishPorts::arg`: four cases on which optional fields are set. -/
def PublishPorts.arg (p : PublishPorts) : String :=
  match p.ip, p.host with
  | some ip, some host_ports =>
    ip ++ ":" ++ host_ports.display ++ ":" ++ p.container.display
  | some ip, none =>
    ip ++ "::" ++ p.container.display
  | none, some host_ports =>
    host_ports.display ++ ":" ++ p.container.display
  | none, none => p.container.display

/-- `Volume`: source, destination, read-write flag, extra options. -/
structure Volume where
  src : String
  dst : String
  read_write : Bool
  options : List String
deriving DecidableEq

/-- `Volume::arg`: pushes `src`, `":"`, `dst`, then `":rw"` or `":ro"`,
then `","` and the option for each extra option. -/
def Volume.arg (v : Volume) : String :=
  let out := v.src ++ ":" ++ v.dst
  let out := if v.read_write then out ++ ":rw" else out ++ ":ro"
  v.options.foldl (fun out opt => out ++ "," ++ opt) out

/-- `BuildOpt`: options for building a container. -/
structure BuildOpt where
  build_args : List (String × String)
  context : String
  dockerfile : Option String
  iidfile : Option String
  no_cache : Bool
  pull : Bool
  quiet : Bool
  tag : Option String
deriving DecidableEq

/-- `CreateNetworkOpt`. -/
structure CreateNetworkOpt where
  name : String
deriving DecidableEq

/-- `RunOpt`: options for running a container. -/
structure RunOpt where
  image : String
  env : List (String × String)
  detach : Bool
  init : Bool
  interactive : Bool
  name : Option String
  network : Option String
  user : Option UserAndGroup
  publish : List PublishPorts
  read_only : Bool
  remove : Bool
  tty : Bool
  volumes : List Volume
  command : Option String
  args : List String
deriving DecidableEq

/-- `StopOpt`. -/
structure StopOpt where
  containers : List String
  time : Option Nat
deriving DecidableEq

/-- `Launcher::build`: `"build"`, the flags in source order, then the
context path as the final positional token. -/
def Launcher.build (l : Launcher) (opt : BuildOpt) : Command :=
  let cmd := l.base_command
  let cmd := cmd.add_arg "build"
  let cmd := opt.build_args.foldl
    (fun cmd kv => cmd.add_arg_pair "--build-arg" (kv.1 ++ "=" ++ kv.2)) cmd
  let cmd := opt.dockerfile.elim cmd
    (fun dockerfile => cmd.add_arg_pair "--file" dockerfile)
  let cmd := opt.iidfile.elim cmd
    (fun iidfile => cmd.add_arg_pair "--iidfile" iidfile)
  let cmd := if opt.no_cache then cmd.add_arg "--no-cache" else cmd
  let cmd := if opt.pull then cmd.add_arg "--pull" else cmd
  let cmd := if opt.quiet then cmd.add_arg "--quiet" else cmd
  let cmd := opt.tag.elim cmd (fun tag => cmd.add_arg_pair "--tag" tag)
  cmd.add_arg opt.context

/-- `Launcher::create_network`. -/
def Launcher.create_network (l : Launcher) (opt : CreateNetworkOpt) : Command :=
  let cmd := l.base_command
  let cmd := cmd.add_arg_pair "network" "create"
  cmd.add_arg opt.name

/-- `Launcher::remove_network`. -/
def Launcher.remove_network (l : Launcher) (name : String) : Command :=
  let cmd := l.base_command
  let cmd := cmd.add_arg_pair "network" "rm"
  cmd.add_arg name

/-- `Launcher::run`: `"run"`, the options in source order, then image,
optional command, and trailing args. -/
def Launcher.run (l : Launcher) (opt : RunOpt) : Command :=
  let cmd := l.base_command
  let cmd := cmd.add_arg "run"
  let cmd := if opt.detach then cmd.add_arg "--detach" else cmd
  let cmd := opt.env.foldl
    (fun cmd kv => cmd.add_arg_pair "--env" (kv.1 ++ "=" ++ kv.2)) cmd
  let cmd := if opt.init then cmd.add_arg "--init" else cmd
  let cmd := if opt.interactive then cmd.add_arg "--interactive" else cmd
  let cmd := opt.name.elim cmd (fun name => cmd.add_arg_pair "--name" name)
  let cmd := opt.network.elim cmd
    (fun network => cmd.add_arg_pair "--network" network)
  let cmd := opt.publish.foldl
    (fun cmd publish => cmd.add_arg_pair "--publish" publish.arg) cmd
  let cmd := if opt.read_only then cmd.add_arg "--read-only" else cmd
  let cmd := if opt.remove then cmd.add_arg "--rm" else cmd
  let cmd := if opt.tty then cmd.add_arg "--tty" else cmd
  let cmd := opt.user.elim cmd (fun user => cmd.add_arg_pair "--user" user.arg)
  let cmd := opt.volumes.foldl
    (fun cmd vol => cmd.add_arg_pair "--volume" vol.arg) cmd
  let cmd := cmd.add_arg opt.image
  let cmd := opt.command.elim cmd (fun command => cmd.add_arg command)
  cmd.add_args opt.args

/-- `Launcher::stop`. -/
def Launcher.stop (l : Launcher) (opt : StopOpt) : Command :=
  let cmd := l.base_command
  let cmd := cmd.add_arg "stop"
  let cmd := opt.time.elim cmd
    (fun time => cmd.add_arg_pair "--time" (toString time))
  cmd.add_args opt.containers

/-- Host state read by auto-detection, passed explicitly: the search-path
variable, the set of existing file paths, and the outcome of the `groups`
probe (`none` models every probe failure; `some out` a successful run
with captured stdout `out`). -/
structure HostEnv where
  path_var : Option String
  existing_files : List String
  groups_output : Option String
deriving DecidableEq

/-- Split a character list at `sep`, keeping empty segments, as
`env::split_paths` does for the `PATH` value. -/
def splitSepAux (sep : Char) : List Char → List Char → List String
  | [], acc => [⟨acc.reverse⟩]
  | c :: rest, acc =>
    if c = sep then
      (⟨acc.reverse⟩ : String) :: splitSepAux sep rest []
    else
      splitSepAux sep rest (c :: acc)

/-- `env::split_paths`: split the search-path value at `':'`. -/
def split_paths (s : String) : List String :=
  splitSepAux ':' s.toList []

/-- `str::split_whitespace`: whitespace-separated non-empty tokens. -/
def splitWhitespaceAux : List Char → List Char → List String
  | [], acc => if acc.isEmpty then [] else [⟨acc.reverse⟩]
  | c :: rest, acc =>
    if c.isWhitespace then
      if acc.isEmpty then
        splitWhitespaceAux rest []
      else
        (⟨acc.reverse⟩ : String) :: splitWhitespaceAux rest []
    else
      splitWhitespaceAux rest (c :: acc)

/-- `str::split_whitespace` on a whole string. -/
def split_whitespace (s : String) : List String :=
  splitWhitespaceAux s.toList []

/-- `is_exe_in_path`: false when the search-path variable is unset;
otherwise some directory of the split path contains a file named
`exe_name`. -/
def is_exe_in_path (env : HostEnv) (exe_name : String) : Bool :=
  match env.path_var with
  | none => false
  | some paths =>
    (split_paths paths).any fun path =>
      env.existing_files.contains (path ++ "/" ++ exe_name)

/-- `is_user_in_group`: false when the `groups` probe fails; otherwise
some whitespace-separated stdout token equals `target_group`. -/
def is_user_in_group (env : HostEnv) (target_group : String) : Bool :=
  match env.groups_output with
  | none => false
  | some stdout =>
    (split_whitespace stdout).any fun group => group == target_group

/-- `Launcher::auto`: podman if on the path, else docker (with sudo
unless the user is in the `docker` group), else `none`. -/
def Launcher.auto (env : HostEnv) : Option Launcher :=
  if is_exe_in_path env "podman" then
    some (Launcher.fromBaseCommand .Podman)
  else if is_exe_in_path env "docker" then
    some (if is_user_in_group env "docker" then
            Launcher.fromBaseCommand .Docker
          else
            Launcher.fromBaseCommand .SudoDocker)
  else
    none

/-- Spec-side rendering of `build`'s option tokens, in the order §4.3
states: repeated `--build-arg key=value`, `--file`, `--iidfile`,
`--no-cache`, `--pull`, `--quiet`, `--tag`, then the context path. -/
def BuildOpt.specTokens (opt : BuildOpt) : List String :=
  (opt.build_args.map fun kv => ["--build-arg", kv.1 ++ "=" ++ kv.2]).flatten
    ++ opt.dockerfile.elim [] (fun dockerfile => ["--file", dockerfile])
    ++ opt.iidfile.elim [] (fun iidfile => ["--iidfile", iidfile])
    ++ (if opt.no_cache then ["--no-cache"] else [])
    ++ (if opt.pull then ["--pull"] else [])
    ++ (if opt.quiet then ["--quiet"] else [])
    ++ opt.tag.elim [] (fun tag => ["--tag", tag])
    ++ [opt.context]

/-- Spec-side rendering of `run`'s option tokens, in the order the claim
states: `--detach`, repeated `--env`, `--init`, `--interactive`,
`--name`, `--network`, repeated `--publish`, `--read-only`, `--rm`,
`--tty`, `--user`, repeated `--volume`, then image, optional command,
and trailing args. -/
def RunOpt.specTokens (opt : RunOpt) : List String :=
  (if opt.detach then ["--detach"] else [])
    ++ (opt.env.map fun kv => ["--env", kv.1 ++ "=" ++ kv.2]).flatten
    ++ (if opt.init then ["--init"] else [])
    ++ (if opt.interactive then ["--interactive"] else [])
    ++ opt.name.elim [] (fun name => ["--name", name])
    ++ opt.network.elim [] (fun network => ["--network", network])
    ++ (opt.publish.map fun publish => ["--publish", publish.arg]).flatten
    ++ (if opt.read_only then ["--read-only"] else [])
    ++ (if opt.remove then ["--rm"] else [])
    ++ (if opt.tty then ["--tty"] else [])
    ++ opt.user.elim [] (fun user => ["--user", user.arg])
    ++ (opt.volumes.map fun vol => ["--volume", vol.arg]).flatten
    ++ [opt.image]
    ++ opt.command.elim [] (fun command => [command])
    ++ opt.args

/-! ### Normal-form lemmas for command construction: the `program` and
`args` projections are pushed through every construct the subcommand
builders use. -/

@[simp] theorem Command.add_arg_program (c : Command) (arg : String) :
    (c.add_arg arg).program = c.program := rfl

@[simp] theorem Command.add_arg_args (c : Command) (arg : String) :
    (c.add_arg arg).args = c.args ++ [arg] := rfl

@[simp] theorem Command.add_arg_pair_program (c : Command) (arg1 arg2 : String) :
    (c.add_arg_pair arg1 arg2).program = c.program := rfl

@[simp] theorem Command.add_arg_pair_args (c : Command) (arg1 arg2 : String) :
    (c.add_arg_pair arg1 arg2).args = c.args ++ [arg1, arg2] := by
  show c.args ++ [arg1] ++ [arg2] = _
  simp

@[simp] theorem Command.add_args_program (c : Command) (args : List String) :
    (c.add_args args).program = c.program := rfl

@[simp] theorem Command.add_args_args (c : Command) (args : List String) :
    (c.add_args args).args = c.args ++ args := rfl

@[simp] theorem Command.if_add_arg_program (b : Bool) (c : Command)
    (arg : String) :
    (if b then c.add_arg arg else c).program = c.program := by
  cases b <;> rfl

@[simp] theorem Command.if_add_arg_args (b : Bool) (c : Command)
    (arg : String) :
    (if b then c.add_arg arg else c).args
      = c.args ++ if b then [arg] else [] := by
  cases b <;> simp

@[simp] theorem Command.elim_pair_str_program (o : Option String)
    (c : Command) (flag : String) :
    (o.elim c fun x => c.add_arg_pair flag x).program = c.program := by
  cases o <;> rfl

@[simp] theorem Command.elim_pair_str_args (o : Option String)
    (c : Command) (flag : String) :
    (o.elim c fun x => c.add_arg_pair flag x).args
      = c.args ++ o.elim [] (fun x => [flag, x]) := by
  cases o <;> simp

@[simp] theorem Command.elim_pair_user_program (o : Option UserAndGroup)
    (c : Command) (flag : String) :
    (o.elim c fun x => c.add_arg_pair flag x.arg).program = c.program := by
  cases o <;> rfl

@[simp] theorem Command.elim_pair_user_args (o : Option UserAndGroup)
    (c : Command) (flag : String) :
    (o.elim c fun x => c.add_arg_pair flag x.arg).args
      = c.args ++ o.elim [] (fun x => [flag, x.arg]) := by
  cases o <;> simp

@[simp] theorem Command.elim_pair_nat_program (o : Option Nat)
    (c : Command) (flag : String) :
    (o.elim c fun x => c.add_arg_pair flag (toString x)).program
      = c.program := by
  cases o <;> rfl

@[simp] theorem Command.elim_pair_nat_args (o : Option Nat)
    (c : Command) (flag : String) :
    (o.elim c fun x => c.add_arg_pair flag (toString x)).args
      = c.args ++ o.elim [] (fun x => [flag, toString x]) := by
  cases o <;> simp

@[simp] theorem Command.elim_arg_str_program (o : Option String)
    (c : Command) :
    (o.elim c fun x => c.add_arg x).program = c.program := by
  cases o <;> rfl

@[simp] theorem Command.elim_arg_str_args (o : Option String)
    (c : Command) :
    (o.elim c fun x => c.add_arg x).args
      = c.args ++ o.elim [] (fun x => [x]) := by
  cases o <;> simp

theorem Command.foldl_add_arg_pair {α : Type} (flag : String)
    (g : α → String) (xs : List α) (c : Command) :
    xs.foldl (fun cmd x => cmd.add_arg_pair flag (g x)) c
      = ⟨c.program, c.args ++ (xs.map fun x => [flag, g x]).flatten⟩ := by
  induction xs generalizing c with
  | nil => simp
  | cons y ys ih =>
    rw [List.foldl_cons, ih]
    simp [Command.add_arg_pair, Command.add_arg]

@[simp] theorem Command.foldl_pair_kv_program (flag : String)
    (xs : List (String × String)) (c : Command) :
    (xs.foldl (fun cmd kv => cmd.add_arg_pair flag (kv.1 ++ "=" ++ kv.2)) c).program
      = c.program := by
  rw [Command.foldl_add_arg_pair flag (fun kv : String × String => kv.1 ++ "=" ++ kv.2)]

@[simp] theorem Command.foldl_pair_kv_args (flag : String)
    (xs : List (String × String)) (c : Command) :
    (xs.foldl (fun cmd kv => cmd.add_arg_pair flag (kv.1 ++ "=" ++ kv.2)) c).args
      = c.args ++ (xs.map fun kv => [flag, kv.1 ++ "=" ++ kv.2]).flatten := by
  rw [Command.foldl_add_arg_pair flag (fun kv : String × String => kv.1 ++ "=" ++ kv.2)]

@[simp] theorem Command.foldl_pair_publish_program (flag : String)
    (xs : List PublishPorts) (c : Command) :
    (xs.foldl (fun cmd publish => cmd.add_arg_pair flag publish.arg) c).program
      = c.program := by
  rw [Command.foldl_add_arg_pair flag PublishPorts.arg]

@[simp] theorem Command.foldl_pair_publish_args (flag : String)
    (xs : List PublishPorts) (c : Command) :
    (xs.foldl (fun cmd publish => cmd.add_arg_pair flag publish.arg) c).args
      = c.args ++ (xs.map fun publish => [flag, publish.arg]).flatten := by
  rw [Command.foldl_add_arg_pair flag PublishPorts.arg]

@[simp] theorem Command.foldl_pair_volume_program (flag : String)
    (xs : List Volume) (c : Command) :
    (xs.foldl (fun cmd vol => cmd.add_arg_pair flag vol.arg) c).program
      = c.program := by
  rw [Command.foldl_add_arg_pair flag Volume.arg]

@[simp] theorem Command.foldl_pair_volume_args (flag : String)
    (xs : List Volume) (c : Command) :
    (xs.foldl (fun cmd vol => cmd.add_arg_pair flag vol.arg) c).args
      = c.args ++ (xs.map fun vol => [flag, vol.arg]).flatten := by
  rw [Command.foldl_add_arg_pair flag Volume.arg]

/-! ### String-joining lemmas for `Volume::arg` -/

theorem foldl_append_str (l : List String) (a b : String) :
    l.foldl (· ++ ·) (a ++ b) = a ++ l.foldl (· ++ ·) b := by
  induction l generalizing b with
  | nil => rfl
  | cons c cs ih => rw [List.foldl_cons, List.foldl_cons, String.append_assoc, ih]

theorem String.join_cons (a : String) (l : List String) :
    String.join (a :: l) = a ++ String.join l := by
  show (a :: l).foldl (· ++ ·) "" = a ++ l.foldl (· ++ ·) ""
  rw [List.foldl_cons]
  show l.foldl (· ++ ·) ("" ++ a) = _
  rw [show ("" ++ a) = a ++ "" by simp, foldl_append_str]

theorem foldl_comma (xs : List String) (s : String) :
    xs.foldl (fun out opt => out ++ "," ++ opt) s
      = s ++ String.join (xs.map fun opt => "," ++ opt) := by
  induction xs generalizing s with
  | nil => simp [String.join]
  | cons y ys ih =>
    rw [List.foldl_cons, ih, List.map_cons, String.join_cons]
    simp [String.append_assoc]

/-! ### Claim theorems -/

/-- C1: for every `RunOpt`, `Launcher::run` emits, after the base
command tokens and `"run"`, the option tokens in the fixed order
`--detach`, repeated `--env key=value`, `--init`, `--interactive`,
`--name`, `--network`, repeated `--publish`, `--read-only`, `--rm`,
`--tty`, `--user`, repeated `--volume`, then positionally the image,
the optional command, and the trailing args in order. -/
theorem run_emits_fixed_order_tokens (l : Launcher) (opt : RunOpt) :
    (l.run opt).argv = l.base_command.argv ++ ["run"] ++ opt.specTokens := by
  simp [Launcher.run, RunOpt.specTokens, Command.argv]

/-- C2: the concrete build scenario against base `docker` yields exactly
the golden argv; and in general `build` emits one `--build-arg key=value`
pair per entry in caller list order, after `"build"` and before
`--file`, with the context path as the single last positional token. -/
theorem build_argv_and_scenario :
    ((Launcher.fromBaseCommand .Docker).build
        ⟨[("barg1", "bval1"), ("barg2", "bval2")], "/myContext",
          some "/myContext/myDockerfile", none, true, true, true,
          some "myTag"⟩).argv
      = ["docker", "build", "--build-arg", "barg1=bval1", "--build-arg",
          "barg2=bval2", "--file", "/myContext/myDockerfile", "--no-cache",
          "--pull", "--quiet", "--tag", "myTag", "/myContext"] ∧
    ∀ (l : Launcher) (opt : BuildOpt),
      (l.build opt).argv = l.base_command.argv ++ ["build"] ++ opt.specTokens := by
  refine ⟨by decide, fun l opt => ?_⟩
  simp [Launcher.build, BuildOpt.specTokens, Command.argv]

/-- C3: for every `PublishPorts`, `arg()` yields exactly one of four
formats determined by which optional fields are present: both `ip` and
`host` set gives `"ip:host:container"`, only `ip` gives
`"ip::container"`, only `host` gives `"host:container"`, and neither
gives `"container"`, each range rendered by `PortRange` display. -/
theorem publish_ports_four_formats (c h : PortRange) (ip : String) :
    (PublishPorts.mk c (some h) (some ip)).arg
        = ip ++ ":" ++ h.display ++ ":" ++ c.display ∧
    (PublishPorts.mk c none (some ip)).arg = ip ++ "::" ++ c.display ∧
    (PublishPorts.mk c (some h) none).arg = h.display ++ ":" ++ c.display ∧
    (PublishPorts.mk c none none).arg = c.display :=
  ⟨rfl, rfl, rfl, rfl⟩

/-- C4: for every `Volume`, `arg()` is `"<src>:<dst>:ro"` when
`read_write` is false and `"<src>:<dst>:rw"` when true, followed by the
options each prefixed with a comma, in input order. -/
theorem volume_arg_rw_ro_and_options (v : Volume) :
    v.arg = v.src ++ ":" ++ v.dst
      ++ (if v.read_write then ":rw" else ":ro")
      ++ String.join (v.options.map fun opt => "," ++ opt) := by
  show v.options.foldl (fun out opt => out ++ "," ++ opt) _ = _
  rw [foldl_comma]
  cases hrw : v.read_write <;> simp [String.append_assoc]

/-- C5: `PortRange` displays the single port when the endpoints are
equal and `"start-end"` otherwise; and the range built from one `u16`
via `From<u16>` has both endpoints equal to it and displays as its
decimal form. -/
theorem port_range_display_roundtrip :
    (∀ r : PortRange,
      r.display = if r.start = r.end_ then toString r.start
                  else toString r.start ++ "-" ++ toString r.end_) ∧
    (∀ n : Nat, n < 65536 →
      (PortRange.fromU16 n).start = n ∧ (PortRange.fromU16 n).end_ = n ∧
      (PortRange.fromU16 n).display = toString n) := by
  refine ⟨fun r => rfl, fun n _ => ⟨rfl, rfl, ?_⟩⟩
  simp [PortRange.display, PortRange.fromU16]

/-- Witness for C5 at the concrete port 123. -/
theorem port_range_display_roundtrip_witness :
    (PortRange.fromU16 123).start = 123 ∧
    (PortRange.fromU16 123).end_ = 123 ∧
    (PortRange.fromU16 123).display = "123" := by
  have h := port_range_display_roundtrip.2 123 (by decide)
  exact ⟨h.1, h.2.1, by simpa using h.2.2⟩

/-- C6: auto-detection selects, in strict priority order: Podman
whenever an executable named `podman` exists in some directory of the
search path, regardless of docker's presence or group membership;
otherwise Docker or SudoDocker when `docker` exists in the search path;
otherwise the explicit `none` result. -/
theorem auto_detection_priority (env : HostEnv) :
    (is_exe_in_path env "podman" = true →
      Launcher.auto env = some (Launcher.fromBaseCommand .Podman)) ∧
    (is_exe_in_path env "podman" = false →
      is_exe_in_path env "docker" = true →
      Launcher.auto env = some (Launcher.fromBaseCommand .Docker) ∨
        Launcher.auto env = some (Launcher.fromBaseCommand .SudoDocker)) ∧
    (is_exe_in_path env "podman" = false →
      is_exe_in_path env "docker" = false →
      Launcher.auto env = none) := by
  refine ⟨fun hp => ?_, fun hp hd => ?_, fun hp hd => ?_⟩
  · simp [Launcher.auto, hp]
  · by_cases hg : is_user_in_group env "docker" = true
    · left
      simp [Launcher.auto, hp, hd, hg]
    · right
      simp [Launcher.auto, hp, hd, hg]
  · simp [Launcher.auto, hp, hd]

/-- Witness for C6: a host with both `podman` and `docker` on the path
selects Podman; a host with neither yields the explicit `none`. -/
theorem auto_detection_priority_witness :
    Launcher.auto
        ⟨some "/bin", ["/bin/podman", "/bin/docker"], some "wheel docker"⟩
      = some (Launcher.fromBaseCommand .Podman) ∧
    Launcher.auto ⟨some "/bin", [], none⟩ = none :=
  ⟨(auto_detection_priority _).1 (by decide),
   (auto_detection_priority _).2.2 (by decide) (by decide)⟩

/-- C7: when `docker` is the engine found, probe failure (`groups`
missing, failing or erroring, modelled as `groups_output = none`) is
treated identically to a successful probe with no whitespace-separated
stdout token equal to `"docker"`: both select SudoDocker and no error
is propagated; Docker without elevation is selected iff the probe
succeeds and some stdout token equals `"docker"`. -/
theorem groups_probe_failure_semantics (env : HostEnv)
    (hp : is_exe_in_path env "podman" = false)
    (hd : is_exe_in_path env "docker" = true) :
    (env.groups_output = none →
      Launcher.auto env = some (Launcher.fromBaseCommand .SudoDocker)) ∧
    (∀ out, env.groups_output = some out →
      ((split_whitespace out).any fun group => group == "docker") = false →
      Launcher.auto env = some (Launcher.fromBaseCommand .SudoDocker)) ∧
    (Launcher.auto env = some (Launcher.fromBaseCommand .Docker) ↔
      ∃ out, env.groups_output = some out ∧
        ((split_whitespace out).any fun group => group == "docker") = true) := by
  have hauto : Launcher.auto env
      = some (if is_user_in_group env "docker" then
                Launcher.fromBaseCommand .Docker
              else
                Launcher.fromBaseCommand .SudoDocker) := by
    simp [Launcher.auto, hp, hd]
  refine ⟨?_, ?_, ?_⟩
  · intro h
    rw [hauto]
    simp [is_user_in_group, h]
  · intro out hsome hno
    rw [hauto]
    simp [is_user_in_group, hsome, hno]
  · constructor
    · intro h
      rw [hauto] at h
      by_cases hg : is_user_in_group env "docker" = true
      · unfold is_user_in_group at hg
        cases hout : env.groups_output with
        | none => rw [hout] at hg; simp at hg
        | some out =>
          refine ⟨out, rfl, ?_⟩
          rw [hout] at hg
          simpa using hg
      · simp [hg] at h
        exact absurd h (by decide)
    · rintro ⟨out, hout, hyes⟩
      rw [hauto]
      simp [is_user_in_group, hout, hyes]

/-- Witness for C7: with only `docker` on the path, a failed probe
selects SudoDocker, and a probe whose stdout contains the token
`docker` selects Docker without elevation. -/
theorem groups_probe_failure_semantics_witness :
    Launcher.auto ⟨some "/bin", ["/bin/docker"], none⟩
      = some (Launcher.fromBaseCommand .SudoDocker) ∧
    Launcher.auto ⟨some "/bin", ["/bin/docker"], some "wheel docker audio"⟩
      = some (Launcher.fromBaseCommand .Docker) :=
  ⟨(groups_probe_failure_semantics _ (by decide) (by decide)).1 rfl,
   (groups_probe_failure_semantics _ (by decide) (by decide)).2.2.mpr
     ⟨"wheel docker audio", rfl, by decide⟩⟩

/-- C8: every subcommand is a deterministic pure function of the
launcher's base command and its option value: structurally equal option
values give byte-identical commands. -/
theorem subcommands_deterministic (l : Launcher) :
    (∀ a b : BuildOpt, a = b → l.build a = l.build b) ∧
    (∀ a b : RunOpt, a = b → l.run a = l.run b) ∧
    (∀ a b : CreateNetworkOpt, a = b → l.create_network a = l.create_network b) ∧
    (∀ a b : String, a = b → l.remove_network a = l.remove_network b) ∧
    (∀ a b : StopOpt, a = b → l.stop a = l.stop b) := by
  refine ⟨?_, ?_, ?_, ?_, ?_⟩ <;> rintro a b rfl <;> rfl

/-- Witness for C8: two structurally equal `StopOpt` values produce the
same command for the docker preset. -/
theorem subcommands_deterministic_witness :
    (Launcher.fromBaseCommand .Docker).stop ⟨["abc", "def"], some 123⟩
      = (Launcher.fromBaseCommand .Docker).stop ⟨["abc", "def"], some 123⟩ :=
  (subcommands_deterministic (Launcher.fromBaseCommand .Docker)).2.2.2.2
    ⟨["abc", "def"], some 123⟩ ⟨["abc", "def"], some 123⟩ rfl

/-- C9 counterexample: the invariant `start <= end` does not hold of
every publicly constructible `PortRange`: the tuple field is public and
`PortRange(5..=3)` is constructible, with `start > end`. -/
theorem port_range_invariant_counterexample :
    ¬ ∀ r : PortRange, r.start ≤ r.end_ := by
  intro h
  exact absurd (h ⟨5, 3⟩) (by decide)

/-- C9 amended: construction does not enforce `start <= end`; the ranges
the library itself constructs — via `From<u16>` and `Default` — satisfy
it (both endpoints are equal), but for a caller-supplied inclusive range
it is a caller obligation. -/
theorem port_range_invariant_amended :
    (∀ n : Nat, n < 65536 →
      (PortRange.fromU16 n).start ≤ (PortRange.fromU16 n).end_ ∧
      (PortRange.fromU16 n).start = (PortRange.fromU16 n).end_) ∧
    PortRange.default.start ≤ PortRange.default.end_ :=
  ⟨fun _ _ => ⟨Nat.le_refl _, rfl⟩, Nat.le_refl 0⟩

/-- Witness for C9's amended theorem at the concrete port 8080. -/
theorem port_range_invariant_amended_witness :
    (PortRange.fromU16 8080).start ≤ (PortRange.fromU16 8080).end_ :=
  (port_range_invariant_amended.1 8080 (by decide)).1

/-- C10: the SudoDocker preset (program `sudo`, argument `docker`)
reports `is_docker` because the program match also scans the base
command's argument tokens; the Docker preset is `is_docker`, and the
Podman preset is `is_podman` but not `is_docker`. -/
theorem preset_program_detection :
    (Launcher.fromBaseCommand .SudoDocker).is_docker = true ∧
    (Launcher.fromBaseCommand .SudoDocker).base_command.args.contains "docker"
      = true ∧
    (Launcher.fromBaseCommand .SudoDocker).is_podman = false ∧
    (Launcher.fromBaseCommand .Docker).is_docker = true ∧
    (Launcher.fromBaseCommand .Podman).is_podman = true ∧
    (Launcher.fromBaseCommand .Podman).is_docker = false := by
  decide

end DockerCommand
